import Mathlib

/-!
Verification of the RenderDash data-quality engine and snapshot codec.

The development shallowly embeds the two source files:

* `src/app.py` — `validate_data_types` (per-column diagnosis) and
  `preprocess_data` (role-based coercion).  Embedded in namespace `App`.
* `src/convert_excel.py` — `convert_excel_to_json` (snapshot encoder with
  `NumpyEncoder`).  Embedded in namespace `Snap`.

Library boundaries (pandas / numpy / json) are modelled as follows:

* `pd.to_datetime(col, errors='raise')` raising for a whole object column is
  an abstract boolean parameter `dp` of the list of non-null (stringified)
  values of the column; pandas passes nulls through as `NaT` without raising,
  so the raise can only depend on the non-null values.  The pandas fact that
  an empty or all-null column never raises is carried as the explicit
  hypothesis `dp [] = false` where a theorem needs it.
* Per-value parsers (`pd.to_numeric` on one value, `pd.to_datetime` with
  `errors='coerce'` on one value) are abstract function parameters.
* pandas dtypes are the explicit tags an embedded column carries; machine
  floats are modelled as `ℚ` (the float32 narrowing of the cache path is an
  abstract rounding function `r32 : ℚ → ℚ`).
* `Series.std()` is the sample (ddof = 1) standard deviation; with fewer
  than 2 non-null values it is NaN and every NaN comparison is false, which
  the embedding renders as the `length < 2` guard of `outlierFlag`.
  The comparison `std > 3 * mean` is encoded over `ℚ` without a square root
  as `3 * mean < 0 ∨ 9 * mean ^ 2 < sampleVar`; the lemma
  `outlierFlag_iff_real` proves this equal to the genuine real-number
  comparison `3 * mean < Real.sqrt sampleVar`.
-/

namespace App

/-- A raw scalar value of a loaded column: null (NaN/NaT/None), a finite
number, a string, or a parsed date instant (an integer timestamp). -/
inductive AVal where
  | null
  | num (q : ℚ)
  | str (s : String)
  | date (t : ℤ)
deriving DecidableEq

/-- Current representation (pandas dtype) of a column, as tested by
`validate_data_types`: `object`, `int64`, `float64`, `datetime64[ns]`,
or any other dtype (bool, category, timedelta, ...). -/
inductive Dtype where
  | object
  | int64
  | float64
  | datetime64
  | otherD
deriving DecidableEq

def dtypeStr : Dtype → String
  | Dtype.object => "object"
  | Dtype.int64 => "int64"
  | Dtype.float64 => "float64"
  | Dtype.datetime64 => "datetime64[ns]"
  | Dtype.otherD => "other"

/-- The status field of a diagnostic: the source stores the check mark or
warning emoji. -/
inductive Status where
  | ok
  | warn
deriving DecidableEq

/-- The issue tags appended by `validate_data_types`; each constructor
stands for one of the distinct Portuguese message strings of the source
(`Issue.msg` below gives the exact text). -/
inductive Issue where
  | convDate
  | convNumber
  | outliers
  | futureDates
  | nullValues (n : ℕ)
  | noIssues
deriving DecidableEq

/-- The exact message strings of the source, for reference. -/
def Issue.msg : Issue → String
  | Issue.convDate => "Coluna pode ser convertida para DATA"
  | Issue.convNumber => "Coluna pode ser convertida para NÚMERO"
  | Issue.outliers => "Possíveis outliers detectados"
  | Issue.futureDates => "Datas futuras detectadas"
  | Issue.nullValues n => toString n ++ " valores nulos encontrados"
  | Issue.noIssues => "Nenhum problema encontrado"

def AVal.isNull : AVal → Bool
  | AVal.null => true
  | _ => false

/-- `Series.dropna()`: the non-null values of a column, in order. -/
def dropna (col : List AVal) : List AVal :=
  col.filter (fun v => !v.isNull)

/-- Python `str(x)` applied to a cell.  Faithful for string cells (the only
cells the claims exercise inside object columns); for other cells the exact
Python float/date formatting is immaterial and a simple rendering is used. -/
def valueStr : AVal → String
  | AVal.str s => s
  | AVal.num q => toString q
  | AVal.date t => toString t
  | AVal.null => "None"

/-- Remove the first occurrence of character `c`, anywhere in the list:
Python `s.replace(c, '', 1)`. -/
def removeFirst (c : Char) : List Char → List Char
  | [] => []
  | x :: xs => if x = c then xs else x :: removeFirst c xs

/-- Python `str.isdigit()` for ASCII data: non-empty and all digits. -/
def pyIsdigit (l : List Char) : Bool :=
  !l.isEmpty && l.all Char.isDigit

/-- The numeric-look test of line 79 of `app.py`:
`str(x).replace('.','',1).replace('-','',1).isdigit()` — strip the first
`'.'` and then the first `'-'`, each anywhere in the string, and test
whether the remainder is a non-empty run of digits. -/
def isNumericLike (s : String) : Bool :=
  pyIsdigit (removeFirst '-' (removeFirst '.' s.toList))

/-- The numeric-look test as the claim words it (strip at most one `'.'`
and at most one LEADING `'-'`).  Stated only to compare against the
source's `isNumericLike`; it is not part of the embedding of the code. -/
def specNumericTest (s : String) : Bool :=
  pyIsdigit (match removeFirst '.' s.toList with
             | '-' :: rest => rest
             | l => l)

def numsOf (l : List AVal) : List ℚ :=
  l.filterMap (fun v => match v with | AVal.num q => some q | _ => none)

/-- `Series.mean()` over an explicit list of rationals. -/
def mean (xs : List ℚ) : ℚ :=
  xs.sum / (xs.length : ℚ)

/-- Sample variance (`ddof = 1`, the pandas `Series.std()` default,
squared): `Σ (x - mean)² / (n - 1)`. -/
def sampleVar (xs : List ℚ) : ℚ :=
  ((xs.map (fun x => (x - mean xs) ^ 2)).sum) / ((xs.length : ℚ) - 1)

/-- Line 91 of `app.py`: `col_data.dropna().std() > col_data.dropna().mean() * 3`.
With fewer than 2 values `std()` is NaN and the comparison is false.
Otherwise `√v > 3m ↔ 3m < 0 ∨ 9m² < v` (see `outlierFlag_iff_real`). -/
def outlierFlag (xs : List ℚ) : Bool :=
  if xs.length < 2 then false
  else decide (3 * mean xs < 0) || decide (9 * (mean xs) ^ 2 < sampleVar xs)

/-- `col_data.max()` over the date cells; pandas skips NaT, and the max of
an empty datetime column is NaT. -/
def maxDate (col : List AVal) : Option ℤ :=
  (col.filterMap (fun v => match v with | AVal.date t => some t | _ => none)).max?

/-- Line 98 of `app.py`: `col_data.max() > pd.Timestamp.now()`; a NaT
maximum compares false. -/
def futureFlag (now : ℤ) (col : List AVal) : Bool :=
  match maxDate col with
  | some m => decide (now < m)
  | none => false

/-- The per-column record built by `validate_data_types`. -/
structure ColAnalysis where
  atual_tipo : String
  sugerido_tipo : Option String
  problemas : List Issue
  exemplos : List AVal
  valores_nulos : ℕ
  valores_unicos : ℕ
  status : Status
deriving DecidableEq

/-- The record as initialized on lines 59–67 of `app.py`, before any check
runs: pandas' `isna().sum()`, `nunique()` (distinct non-null values) and
`head(3)` fill the counts and samples. -/
def initAnalysis (dtype : Dtype) (col : List AVal) : ColAnalysis :=
  { atual_tipo := dtypeStr dtype
    sugerido_tipo := none
    problemas := []
    exemplos := col.take 3
    valores_nulos := (col.filter AVal.isNull).length
    valores_unicos := (dropna col).dedup.length
    status := Status.ok }

/-- Lines 70–85 of `app.py` (the `object` branch): try the whole-column
date parse; on success suggest DATA (the inner dtype re-check is the
source's, and inside this branch it always passes); on a raise, classify
the stringified non-null values with `isNumericLike` and compare the
passing fraction against 0.8. -/
def inferObject (dp : List String → Bool) (dtype : Dtype)
    (nonNull : List AVal) (a0 : ColAnalysis) : ColAnalysis :=
  if dtype = Dtype.object then
    if dp (nonNull.map valueStr) then
      if (4 : ℚ) / 5 <
          (((nonNull.map valueStr).countP isNumericLike : ℚ) /
            (nonNull.length : ℚ)) then
        { a0 with sugerido_tipo := some "NÚMERO"
                  problemas := a0.problemas ++ [Issue.convNumber]
                  status := Status.warn }
      else
        { a0 with sugerido_tipo := some "TEXTO" }
    else
      if dtypeStr dtype ≠ "datetime64[ns]" then
        { a0 with sugerido_tipo := some "DATA"
                  problemas := a0.problemas ++ [Issue.convDate]
                  status := Status.warn }
      else { a0 with sugerido_tipo := some "DATA" }
  else a0

/-- Lines 88–100 of `app.py`: the numeric-dtype outlier check and, on the
`elif`, the datetime-dtype future-date check. -/
def checkTyped (now : ℤ) (dtype : Dtype) (col : List AVal)
    (nonNull : List AVal) (a1 : ColAnalysis) : ColAnalysis :=
  if dtype = Dtype.int64 ∨ dtype = Dtype.float64 then
    if outlierFlag (numsOf nonNull) then
      { a1 with sugerido_tipo := some "NÚMERO"
                problemas := a1.problemas ++ [Issue.outliers]
                status := Status.warn }
    else { a1 with sugerido_tipo := some "NÚMERO" }
  else if dtype = Dtype.datetime64 then
    if futureFlag now col then
      { a1 with sugerido_tipo := some "DATA"
                problemas := a1.problemas ++ [Issue.futureDates]
                status := Status.warn }
    else { a1 with sugerido_tipo := some "DATA" }
  else a1

/-- Lines 103–105 of `app.py`: report null values. -/
def checkNulls (a2 : ColAnalysis) : ColAnalysis :=
  if 0 < a2.valores_nulos then
    { a2 with problemas := a2.problemas ++ [Issue.nullValues a2.valores_nulos]
              status := Status.warn }
  else a2

/-- Lines 108–109 of `app.py`: the no-issues sentinel, appended without
touching the status. -/
def addSentinel (a3 : ColAnalysis) : ColAnalysis :=
  if a3.problemas = [] then { a3 with problemas := [Issue.noIssues] } else a3

/-- The body of the `for column in df.columns` loop of `validate_data_types`
(lines 57–109 of `app.py`), for one column.  `dp` is the abstract
"whole-column `pd.to_datetime(errors='raise')` raises" oracle applied to
the stringified non-null values; `now` is `pd.Timestamp.now()`. -/
def analyzeColumn (dp : List String → Bool) (now : ℤ) (dtype : Dtype)
    (col : List AVal) : ColAnalysis :=
  addSentinel (checkNulls (checkTyped now dtype col (dropna col)
    (inferObject dp dtype (dropna col) (initAnalysis dtype col))))


/-- A raw column: label, current dtype, cells. -/
structure RawCol where
  label : String
  dtype : Dtype
  values : List AVal
deriving DecidableEq

/-- `validate_data_types(df)`: one diagnostic per column, in column order. -/
def validate_data_types (dp : List String → Bool) (now : ℤ)
    (df : List RawCol) : List (String × ColAnalysis) :=
  df.map (fun c => (c.label, analyzeColumn dp now c.dtype c.values))

/-- The date-role labels of `preprocess_data` (line 121 of `app.py`). -/
def date_columns : List String :=
  ["DATA_TOA", "DATA", "INÍCIO", "FIM", "DESLOCAMENTO"]

/-- Declared width of a numeric-role column in the interactive path. -/
inductive NDtype where
  | float64T
  | int64T
deriving DecidableEq

/-- The numeric-role dictionary of `preprocess_data` (lines 130–139 of
`app.py`), as the lookup function a Python dict provides. -/
def numericRole (l : String) : Option NDtype :=
  if l = "COP REVERTEU" then some NDtype.float64T
  else if l = "LATIDUDE" then some NDtype.float64T
  else if l = "LONGITUDE" then some NDtype.float64T
  else if l = "COD" then some NDtype.int64T
  else if l = "TIPO OS" then some NDtype.int64T
  else if l = "VALOR TÉCNICO" then some NDtype.float64T
  else if l = "VALOR EMPRESA" then some NDtype.float64T
  else if l = "PONTO" then some NDtype.float64T
  else none

/-- `astype('int64')` truncation of a float toward zero. -/
def truncQ (q : ℚ) : ℤ :=
  if 0 ≤ q then ⌊q⌋ else -⌊-q⌋

/-- `df[col] = pd.to_numeric(df[col], errors='coerce').astype(dtype)` for
one numeric-role column (lines 141–146 of `app.py`).  `pn` is the abstract
per-value `pd.to_numeric` parser (`none` = NaN).  Casting to `float64`
keeps NaN as null; casting to `int64` raises on any NaN
(`IntCastingNaNError`), which the bare `except` of the source turns into a
warning, leaving the column unchanged — rendered here as `none`. -/
def astypeCol (nd : NDtype) (parsed : List (Option ℚ)) : Option (List AVal) :=
  match nd with
  | NDtype.float64T =>
      some (parsed.map (fun o => match o with
        | some q => AVal.num q
        | none => AVal.null))
  | NDtype.int64T =>
      if parsed.all Option.isSome then
        some (parsed.map (fun o => match o with
          | some q => AVal.num ((truncQ q : ℤ) : ℚ)
          | none => AVal.null))
      else none

/-- One column of `preprocess_data` (lines 114–159 of `app.py`): date-role
columns are re-parsed per value with null on failure (`errors='coerce'`);
numeric-role columns go through `to_numeric` + `astype`, the whole column
staying unchanged when the cast raises; every other column (including the
categorical-role ones, which are only counted and warned about) passes
through unchanged.  `pdate`/`pn` are the abstract per-value parsers. -/
def processCol (pdate : AVal → Option ℤ) (pn : AVal → Option ℚ)
    (c : RawCol) : RawCol :=
  if c.label ∈ date_columns then
    { c with dtype := Dtype.datetime64
             values := c.values.map (fun v => match pdate v with
               | some t => AVal.date t
               | none => AVal.null) }
  else
    match numericRole c.label with
    | some nd =>
        match astypeCol nd (c.values.map pn) with
        | some newVals =>
            { c with dtype := (match nd with
                               | NDtype.float64T => Dtype.float64
                               | NDtype.int64T => Dtype.int64)
                     values := newVals }
        | none => c
    | none => c

/-- `preprocess_data(df)`: a fresh table (the source works on `df.copy()`),
each column converted independently; the function always returns and never
raises (all conversion failures are caught). -/
def preprocess_data (pdate : AVal → Option ℤ) (pn : AVal → Option ℚ)
    (df : List RawCol) : List RawCol :=
  df.map (processCol pdate pn)

end App


namespace Snap

/-- Column type tags relevant to `convert_excel_to_json`: the tags the
converted table can carry (`object` for the strftime-rendered date columns,
`float32` for the numeric columns, `category` for the categorical ones)
plus tags an arbitrary input table may carry (`int64`, `float64`, `bool`,
`datetime64[ns]`). -/
inductive Tag where
  | float32
  | float64
  | int64
  | object
  | category
  | boolT
  | datetime64
deriving DecidableEq

/-- `str(df[col].dtype)`: the exact internal representation name recorded
in the `dtypes` mapping. -/
def tagStr : Tag → String
  | Tag.float32 => "float32"
  | Tag.float64 => "float64"
  | Tag.int64 => "int64"
  | Tag.object => "object"
  | Tag.category => "category"
  | Tag.boolT => "bool"
  | Tag.datetime64 => "datetime64[ns]"

/-- A cell of the table handed to `json.dumps`: null (None/NaN/NaT), a
finite number, a non-finite float (inf, -inf or a non-null NaN), a string,
a Python bool, or any object the JSON encoder cannot serialize (e.g. a raw
`Timestamp` from a datetime column that was never strftime-rendered). -/
inductive Cell where
  | null
  | fin (q : ℚ)
  | nonfinite
  | str (s : String)
  | boolc (b : Bool)
  | other
deriving DecidableEq

/-- The JSON documents `json.dumps` produces. -/
inductive JVal where
  | null
  | num (q : ℚ)
  | str (s : String)
  | jbool (b : Bool)
  | arr (xs : List JVal)
  | obj (fields : List (String × JVal))

/-- One cell through `json.dumps(..., cls=NumpyEncoder)` (lines 7–17 of
`convert_excel.py`): `None` → null; a NaN or infinite float → null; a
finite number → itself; strings and bools natively; any other object
raises `TypeError` (the `super().default` call), rendered as `none`. -/
def serializeCell : Cell → Option JVal
  | Cell.null => some JVal.null
  | Cell.fin q => some (JVal.num q)
  | Cell.nonfinite => some JVal.null
  | Cell.str s => some (JVal.str s)
  | Cell.boolc b => some (JVal.jbool b)
  | Cell.other => none

/-- Sequence a list of options: `some` of the list of values exactly when
every entry is `some` (the first `none` — a serialization `TypeError` —
fails the whole document). -/
def allSome {α : Type} : List (Option α) → Option (List α)
  | [] => some []
  | none :: _ => none
  | some a :: rest =>
      match allSome rest with
      | some l => some (a :: l)
      | none => none

/-- A typed column of the snapshot encoder's input. -/
structure TCol where
  label : String
  tag : Tag
  values : List Cell
deriving DecidableEq

/-- The row count of `df.values`: the shared column length (the first
column's length; well-formed tables are rectangular). -/
def nRows (cols : List TCol) : ℕ :=
  match cols with
  | [] => 0
  | c :: _ => c.values.length

/-- `df.values.tolist()`: the row-major value matrix. -/
def rowMajor (cols : List TCol) : List (List Cell) :=
  (List.range (nRows cols)).map
    (fun i => cols.map (fun c => c.values.getD i Cell.null))

def serializeRow (r : List Cell) : Option JVal :=
  (allSome (r.map serializeCell)).map JVal.arr

/-- The `data_dict` built on lines 72–76 of `convert_excel.py` and passed
through `json.dumps`: top-level keys `columns` (array of label strings),
`data` (row-major array of arrays), `dtypes` (label → type-tag string).
`none` when `json.dumps` raises on some cell; the gzip compression and the
UTF-8 encoding of the resulting text are content-preserving library
boundaries and are not modelled. -/
def encodeTable (cols : List TCol) : Option JVal :=
  (allSome ((rowMajor cols).map serializeRow)).map (fun rows =>
    JVal.obj
      [("columns", JVal.arr (cols.map (fun c => JVal.str c.label))),
       ("data", JVal.arr rows),
       ("dtypes", JVal.obj (cols.map (fun c => (c.label, JVal.str (tagStr c.tag)))))])

/-- A calendar timestamp as strftime sees it. -/
structure DateT where
  y : ℕ
  mo : ℕ
  d : ℕ
  h : ℕ
  mi : ℕ
  s : ℕ
deriving DecidableEq

/-- Fixed-width decimal rendering: the last `w` digits of `n`, zero-padded
to exactly `w` characters (`%0wd` for `n < 10^w`, which pandas timestamp
fields always satisfy). -/
def fixedDigits : ℕ → ℕ → List Char
  | 0, _ => []
  | w + 1, n => fixedDigits w (n / 10) ++ [Char.ofNat (48 + n % 10)]

/-- `dt.strftime('%Y%m%d%H%M%S')`: the compact 14-character timestamp. -/
def strftimeCompact (t : DateT) : String :=
  String.mk (fixedDigits 4 t.y ++ fixedDigits 2 t.mo ++ fixedDigits 2 t.d ++
             fixedDigits 2 t.h ++ fixedDigits 2 t.mi ++ fixedDigits 2 t.s)

/-- Lines 42–49 of `convert_excel.py` for one date-role column:
`pd.to_datetime(errors='coerce')` (abstract per-value parser `pdate`,
`none` = NaT) followed by the compact strftime rendering, unparsable and
null entries ending as null in the serialized document. -/
def convertDateCol (pdate : Cell → Option DateT) (vals : List Cell) : List Cell :=
  vals.map (fun v => match pdate v with
    | some t => Cell.str (strftimeCompact t)
    | none => Cell.null)

/-- Result of `pd.to_numeric(errors='coerce')` on one value: NaN, an
infinity, or a finite number. -/
inductive NumVal where
  | na
  | inf
  | val (q : ℚ)
deriving DecidableEq

/-- Lines 52–65 of `convert_excel.py` for one numeric-role column:
`pd.to_numeric(errors='coerce').astype('float32')`; `r32` is the abstract
float32 rounding. -/
def astypeFloat32 (r32 : ℚ → ℚ) (pnum : Cell → NumVal) (vals : List Cell) :
    List Cell :=
  vals.map (fun v => match pnum v with
    | NumVal.na => Cell.null
    | NumVal.inf => Cell.nonfinite
    | NumVal.val q => Cell.fin (r32 q))

/-- The date-role labels of `convert_excel_to_json` (line 42). -/
def dateLabels : List String :=
  ["DATA_TOA", "DATA", "INÍCIO", "FIM", "DESLOCAMENTO"]

/-- The numeric-role labels of `convert_excel_to_json` (lines 52–61); all
are narrowed to `float32` in this cache-oriented path. -/
def numericLabels : List String :=
  ["COP REVERTEU", "LATIDUDE", "LONGITUDE", "COD", "TIPO OS",
   "VALOR TÉCNICO", "VALOR EMPRESA", "PONTO"]

/-- The column conversions of `convert_excel_to_json` before serialization:
date-role columns become `object` columns of compact timestamp strings,
numeric-role columns become `float32`, everything else passes through. -/
def convertCols (r32 : ℚ → ℚ) (pdate : Cell → Option DateT)
    (pnum : Cell → NumVal) (cols : List TCol) : List TCol :=
  cols.map (fun c =>
    if c.label ∈ dateLabels then
      { c with tag := Tag.object, values := convertDateCol pdate c.values }
    else if c.label ∈ numericLabels then
      { c with tag := Tag.float32, values := astypeFloat32 r32 pnum c.values }
    else c)

/-- The conversion plus serialization core of `convert_excel_to_json`
(lines 41–80 of `convert_excel.py`). -/
def convert_excel_to_json (r32 : ℚ → ℚ) (pdate : Cell → Option DateT)
    (pnum : Cell → NumVal) (cols : List TCol) : Option JVal :=
  encodeTable (convertCols r32 pdate pnum cols)

/-- Total serialization of a cell, meaningful on serializable cells
(`serializeCell` is `some` there); the default is never exercised. -/
def serializeCellD (c : Cell) : JVal :=
  (serializeCell c).getD JVal.null

/-- The document `encodeTable` produces when every cell serializes. -/
def mkDoc (cols : List TCol) : JVal :=
  JVal.obj
    [("columns", JVal.arr (cols.map (fun c => JVal.str c.label))),
     ("data", JVal.arr ((rowMajor cols).map
        (fun r => JVal.arr (r.map serializeCellD)))),
     ("dtypes", JVal.obj (cols.map (fun c => (c.label, JVal.str (tagStr c.tag)))))]

/-- Modelled from the spec: the snapshot decoder's type-tag table.  The
decode path inside `load_data` is code of this repository that is not under
`src/` (only the encoder is), so it is modelled from §4.2 of the spec:
the decoder recognizes the categorical representation, the narrow float
width, wide numeric widths and plain `object` text.  Date columns of this
encoder always carry the tag `object` (they were strftime-rendered to
strings before serialization), so a date-representation tag never reaches
the decoder and is omitted together with the other unrecognized tags. -/
def parseTag (s : String) : Option Tag :=
  if s = "float32" then some Tag.float32
  else if s = "float64" then some Tag.float64
  else if s = "int64" then some Tag.int64
  else if s = "object" then some Tag.object
  else if s = "category" then some Tag.category
  else none

/-- Modelled from the spec (§4.2 `decode`): replay one column type tag over
one decoded JSON value.  A narrow float is re-parsed at the narrow width
(`r32`), with failures coerced to null; wide numerics pass through
bit-identically; `object` and `category` keep their strings; null stays
null. -/
def replayCell (r32 : ℚ → ℚ) : Tag → JVal → Cell
  | Tag.float32, JVal.num q => Cell.fin (r32 q)
  | Tag.float64, JVal.num q => Cell.fin q
  | Tag.int64, JVal.num q => Cell.fin q
  | Tag.object, JVal.str s => Cell.str s
  | Tag.object, JVal.num q => Cell.fin q
  | Tag.category, JVal.str s => Cell.str s
  | _, _ => Cell.null

/-- Modelled from the spec: rebuild the `j`-th column — its label from the
`columns` array, its tag from the `dtypes` mapping through the decoder's
tag table, its values from the `j`-th entry of every row with the tag
replayed over each. -/
def decodeColumn (r32 : ℚ → ℚ) (dtypeFields : List (String × JVal))
    (rows : List JVal) (colNames : List JVal) (j : ℕ) : Option TCol :=
  match colNames.getD j JVal.null with
  | JVal.str label =>
      match dtypeFields.lookup label with
      | some (JVal.str tagName) =>
          match parseTag tagName with
          | some tag =>
              some { label := label
                     tag := tag
                     values := rows.map (fun row =>
                       replayCell r32 tag (match row with
                         | JVal.arr cells => cells.getD j JVal.null
                         | _ => JVal.null)) }
          | none => none
      | _ => none
  | _ => none

/-- Modelled from the spec (§4.2 `decode`, §6 snapshot format): decompress
and parse the document (the content-preserving gzip/UTF-8 layer is not
modelled), read the `columns`, `data` and `dtypes` keys, rebuild each
column in order, and replay each column's recorded type tag over its
values; an unrecognized document shape or type tag fails the decode. -/
def decodeTable (r32 : ℚ → ℚ) (doc : JVal) : Option (List TCol) :=
  match doc with
  | JVal.obj fields =>
      match fields.lookup "columns", fields.lookup "data", fields.lookup "dtypes" with
      | some (JVal.arr colNames), some (JVal.arr rows), some (JVal.obj dtypeFields) =>
          allSome ((List.range colNames.length).map
            (decodeColumn r32 dtypeFields rows colNames))
      | _, _, _ => none
  | _ => none

/-- Placeholder column used as a `getD` default in proofs; never an actual
table entry. -/
def dummyT : TCol :=
  ⟨"", Tag.object, []⟩

/-- Whether a type tag survives the codec: recorded by the encoder and
recognized by the decoder's tag table. -/
def representableTag (t : Tag) : Bool :=
  (parseTag (tagStr t)).isSome

/-- Which cells a column of a given tag may hold so that the snapshot is
faithful: narrow floats hold null or values already at the narrow width
(`r32 q = q`), wide numerics hold null or any finite value, text and
categorical columns hold null or strings. -/
def cellOk (r32 : ℚ → ℚ) : Tag → Cell → Bool
  | Tag.float32, Cell.null => true
  | Tag.float32, Cell.fin q => decide (r32 q = q)
  | Tag.float64, Cell.null => true
  | Tag.float64, Cell.fin _ => true
  | Tag.int64, Cell.fin _ => true
  | Tag.object, Cell.null => true
  | Tag.object, Cell.str _ => true
  | Tag.category, Cell.null => true
  | Tag.category, Cell.str _ => true
  | _, _ => false

/-- A well-formed typed table for the round-trip law: rectangular, with
distinct column labels, every tag representable and every cell admissible
for its column's tag. -/
def wfTable (r32 : ℚ → ℚ) (T : List TCol) : Prop :=
  (∀ c ∈ T, c.values.length = nRows T) ∧
    (T.map TCol.label).Nodup ∧
    ∀ c ∈ T, representableTag c.tag = true ∧
      ∀ v ∈ c.values, cellOk r32 c.tag v = true

/-- The observable write behaviour of `convert_excel_to_json`: the document
is fully serialized in memory (`json_str = json.dumps(...)`, line 78)
before `gzip.open(json_path, 'wt')` runs, so a serialization failure is
caught by the enclosing `try` with no file created; on success the whole
document is written to `json_path`.  The pair is (returned flag, file
written). -/
def convertResult (jsonPath : String) (cols : List TCol) :
    Bool × Option (String × JVal) :=
  match encodeTable cols with
  | none => (false, none)
  | some doc => (true, some (jsonPath, doc))

end Snap

namespace App

@[simp] theorem initAnalysis_problemas (dtype : Dtype) (col : List AVal) :
    (initAnalysis dtype col).problemas = [] := rfl

@[simp] theorem initAnalysis_status (dtype : Dtype) (col : List AVal) :
    (initAnalysis dtype col).status = Status.ok := rfl

@[simp] theorem initAnalysis_sugerido (dtype : Dtype) (col : List AVal) :
    (initAnalysis dtype col).sugerido_tipo = none := rfl

@[simp] theorem initAnalysis_nulos (dtype : Dtype) (col : List AVal) :
    (initAnalysis dtype col).valores_nulos = (col.filter AVal.isNull).length := rfl

@[simp] theorem initAnalysis_unicos (dtype : Dtype) (col : List AVal) :
    (initAnalysis dtype col).valores_unicos = (dropna col).dedup.length := rfl

/-- The sample variance is nonnegative whenever it is defined (n ≥ 2). -/
theorem sampleVar_nonneg (xs : List ℚ) (h : 2 ≤ xs.length) : 0 ≤ sampleVar xs := by
  unfold sampleVar
  apply div_nonneg
  · apply List.sum_nonneg
    intro x hx
    obtain ⟨y, -, rfl⟩ := List.mem_map.mp hx
    positivity
  · have h2 : (2 : ℚ) ≤ (xs.length : ℚ) := by exact_mod_cast h
    linarith

/-- The square-root-free rendering of `std > 3 * mean` used by
`outlierFlag` agrees with the real-number comparison of the sample
standard deviation (the square root of `sampleVar`) against `3 * mean`. -/
theorem outlierFlag_iff_real (xs : List ℚ) :
    outlierFlag xs = true ↔
      2 ≤ xs.length ∧
        3 * ((mean xs : ℚ) : ℝ) < Real.sqrt ((sampleVar xs : ℚ) : ℝ) := by
  unfold outlierFlag
  split_ifs with hlt
  · simp only [Bool.false_eq_true, false_iff]
    rintro ⟨h2, -⟩
    omega
  · have h2 : 2 ≤ xs.length := by omega
    have hv0 : (0 : ℚ) ≤ sampleVar xs := sampleVar_nonneg xs h2
    simp only [Bool.or_eq_true, decide_eq_true_eq]
    constructor
    · rintro (hneg | hgt)
      · have hR : 3 * ((mean xs : ℚ) : ℝ) < 0 := by exact_mod_cast hneg
        exact ⟨h2, lt_of_lt_of_le hR (Real.sqrt_nonneg _)⟩
      · refine ⟨h2, ?_⟩
        rcases lt_or_le (3 * ((mean xs : ℚ) : ℝ)) 0 with hneg | hpos
        · exact lt_of_lt_of_le hneg (Real.sqrt_nonneg _)
        · rw [Real.lt_sqrt hpos]
          have hR : (9 : ℝ) * ((mean xs : ℚ) : ℝ) ^ 2 < ((sampleVar xs : ℚ) : ℝ) := by
            exact_mod_cast hgt
          nlinarith [hR]
    · rintro ⟨-, hlt'⟩
      by_cases hneg : 3 * mean xs < 0
      · exact Or.inl hneg
      · right
        push_neg at hneg
        have hpos : (0 : ℝ) ≤ 3 * ((mean xs : ℚ) : ℝ) := by exact_mod_cast hneg
        rw [Real.lt_sqrt hpos] at hlt'
        have hR : (9 : ℝ) * ((mean xs : ℚ) : ℝ) ^ 2 < ((sampleVar xs : ℚ) : ℝ) := by
          nlinarith [hlt']
        exact_mod_cast hR

/-- The object branch does nothing on a non-object column. -/
theorem inferObject_not_object (dp : List String → Bool) (dtype : Dtype)
    (h : dtype ≠ Dtype.object) (nn : List AVal) (a : ColAnalysis) :
    inferObject dp dtype nn a = a := by
  simp [inferObject, h]

/-- On a numerically-represented column, step 2 suggests NÚMERO and
appends the outliers issue exactly when the comparison fires. -/
theorem checkTyped_numeric (now : ℤ) (dtype : Dtype) (col nn : List AVal)
    (a : ColAnalysis) (h : dtype = Dtype.int64 ∨ dtype = Dtype.float64) :
    checkTyped now dtype col nn a =
      if outlierFlag (numsOf nn) then
        { a with sugerido_tipo := some "NÚMERO"
                 problemas := a.problemas ++ [Issue.outliers]
                 status := Status.warn }
      else { a with sugerido_tipo := some "NÚMERO" } := by
  rcases h with rfl | rfl <;> (unfold checkTyped; simp)

/-- Membership of an issue other than the null-count and sentinel issues
is unchanged by the last two steps. -/
theorem mem_final_iff (i : Issue) (a : ColAnalysis)
    (hi₁ : ∀ n, i ≠ Issue.nullValues n) (hi₂ : i ≠ Issue.noIssues) :
    i ∈ (addSentinel (checkNulls a)).problemas ↔ i ∈ a.problemas := by
  unfold checkNulls addSentinel
  split_ifs <;> simp_all

/-- For a numerically-represented column, the outliers issue is in the
final issue list exactly when the source's comparison fires. -/
theorem outliers_mem_iff (dp : List String → Bool) (now : ℤ) (dtype : Dtype)
    (col : List AVal) (hdt : dtype = Dtype.int64 ∨ dtype = Dtype.float64) :
    Issue.outliers ∈ (analyzeColumn dp now dtype col).problemas ↔
      outlierFlag (numsOf (dropna col)) = true := by
  have hobj : dtype ≠ Dtype.object := by rcases hdt with rfl | rfl <;> simp
  unfold analyzeColumn
  rw [inferObject_not_object dp dtype hobj,
      mem_final_iff _ _ (by simp) (by simp),
      checkTyped_numeric now dtype col (dropna col) (initAnalysis dtype col) hdt]
  cases hflag : outlierFlag (numsOf (dropna col)) <;> simp [hflag]

end App

/-- C1 (corrected): at the two-element int64 column `[-10, -10]` the code
appends POSSIBLE_OUTLIERS — the source compares `std > 3 * mean` with the
signed mean, and `0 > -30` holds — while the claim's comparison against
`3 * |mean| = 30` fails, refuting the stated iff. -/
theorem C1_counterexample :
    App.Issue.outliers ∈
        (App.analyzeColumn (fun _ => false) 0 App.Dtype.int64
          [App.AVal.num (-10), App.AVal.num (-10)]).problemas ∧
      ¬ 3 * |((App.mean [(-10 : ℚ), -10] : ℚ) : ℝ)| <
          Real.sqrt ((App.sampleVar [(-10 : ℚ), -10] : ℚ) : ℝ) := by
  constructor
  · rw [App.outliers_mem_iff _ _ _ _ (Or.inl rfl)]
    have hxs : App.numsOf (App.dropna [App.AVal.num (-10), App.AVal.num (-10)]) =
        [(-10 : ℚ), -10] := rfl
    rw [hxs]
    norm_num [App.outlierFlag, App.mean, App.sampleVar]
  · have hv : App.sampleVar [(-10 : ℚ), -10] = 0 := by
      norm_num [App.sampleVar, App.mean]
    have hm : App.mean [(-10 : ℚ), -10] = -10 := by
      norm_num [App.mean]
    rw [hv, hm]
    push_cast
    rw [Real.sqrt_zero]
    norm_num

/-- C1 (amended): for every column whose current representation is numeric
(int64 or float64), diagnose appends POSSIBLE_OUTLIERS iff the column has
at least 2 non-null values and the sample standard deviation of the
non-null values exceeds 3 times their (signed) mean — the source does not
take the absolute value of the mean; with fewer than 2 non-null values no
outlier issue is appended. -/
theorem C1_amended (dp : List String → Bool) (now : ℤ) (dtype : App.Dtype)
    (col : List App.AVal)
    (hdt : dtype = App.Dtype.int64 ∨ dtype = App.Dtype.float64) :
    App.Issue.outliers ∈ (App.analyzeColumn dp now dtype col).problemas ↔
      2 ≤ (App.numsOf (App.dropna col)).length ∧
        3 * ((App.mean (App.numsOf (App.dropna col)) : ℚ) : ℝ) <
          Real.sqrt ((App.sampleVar (App.numsOf (App.dropna col)) : ℚ) : ℝ) := by
  rw [App.outliers_mem_iff dp now dtype col hdt, App.outlierFlag_iff_real]

/-- Witness for C1_amended at the concrete float64 column `[1, 1, 1, 1, 1000]`. -/
theorem C1_witness :
    App.Issue.outliers ∈
        (App.analyzeColumn (fun _ => false) 0 App.Dtype.float64
          [App.AVal.num 1, App.AVal.num 1, App.AVal.num 1, App.AVal.num 1,
           App.AVal.num 1000]).problemas ↔
      2 ≤ (App.numsOf (App.dropna
            [App.AVal.num 1, App.AVal.num 1, App.AVal.num 1, App.AVal.num 1,
             App.AVal.num 1000])).length ∧
        3 * ((App.mean (App.numsOf (App.dropna
              [App.AVal.num 1, App.AVal.num 1, App.AVal.num 1, App.AVal.num 1,
               App.AVal.num 1000])) : ℚ) : ℝ) <
          Real.sqrt ((App.sampleVar (App.numsOf (App.dropna
              [App.AVal.num 1, App.AVal.num 1, App.AVal.num 1, App.AVal.num 1,
               App.AVal.num 1000])) : ℚ) : ℝ) :=
  C1_amended (fun _ => false) 0 App.Dtype.float64 _ (Or.inr rfl)

namespace App

/-- Step 2 does nothing on an object column. -/
theorem checkTyped_object (now : ℤ) (col nn : List AVal) (a : ColAnalysis) :
    checkTyped now Dtype.object col nn a = a := by
  unfold checkTyped
  simp

/-- Step 3 never changes the suggested type. -/
theorem checkNulls_sugerido (a : ColAnalysis) :
    (checkNulls a).sugerido_tipo = a.sugerido_tipo := by
  unfold checkNulls
  split_ifs <;> rfl

/-- Step 4 never changes the suggested type. -/
theorem addSentinel_sugerido (a : ColAnalysis) :
    (addSentinel a).sugerido_tipo = a.sugerido_tipo := by
  unfold addSentinel
  split_ifs <;> rfl

/-- Object column, date parse raised, fraction above 0.8: NÚMERO with the
convertibility issue. -/
theorem object_numeric_case (dp : List String → Bool) (now : ℤ)
    (col : List AVal) (hdp : dp ((dropna col).map valueStr) = true)
    (hlt : (4 : ℚ) / 5 <
      (((dropna col).map valueStr).countP isNumericLike : ℚ) /
        ((dropna col).length : ℚ)) :
    (analyzeColumn dp now Dtype.object col).sugerido_tipo = some "NÚMERO" ∧
      Issue.convNumber ∈ (analyzeColumn dp now Dtype.object col).problemas := by
  unfold analyzeColumn
  rw [show inferObject dp Dtype.object (dropna col) (initAnalysis Dtype.object col) =
      { initAnalysis Dtype.object col with
          sugerido_tipo := some "NÚMERO"
          problemas := [Issue.convNumber]
          status := Status.warn } from by
    unfold inferObject
    simp only [List.countP_map] at hlt
    simp [hdp, hlt]]
  rw [checkTyped_object]
  refine ⟨?_, ?_⟩
  · rw [addSentinel_sugerido, checkNulls_sugerido]
  · rw [mem_final_iff _ _ (by simp) (by simp)]
    simp

/-- Object column, date parse raised, fraction not above 0.8: TEXTO, no
issue from this step. -/
theorem object_text_case (dp : List String → Bool) (now : ℤ)
    (col : List AVal) (hdp : dp ((dropna col).map valueStr) = true)
    (hge : ¬ (4 : ℚ) / 5 <
      (((dropna col).map valueStr).countP isNumericLike : ℚ) /
        ((dropna col).length : ℚ)) :
    (analyzeColumn dp now Dtype.object col).sugerido_tipo = some "TEXTO" ∧
      Issue.convNumber ∉ (analyzeColumn dp now Dtype.object col).problemas := by
  unfold analyzeColumn
  rw [show inferObject dp Dtype.object (dropna col) (initAnalysis Dtype.object col) =
      { initAnalysis Dtype.object col with sugerido_tipo := some "TEXTO" } from by
    unfold inferObject
    simp only [List.countP_map] at hge
    simp [hdp, hge]]
  rw [checkTyped_object]
  refine ⟨?_, ?_⟩
  · rw [addSentinel_sugerido, checkNulls_sugerido]
  · rw [mem_final_iff _ _ (by simp) (by simp)]
    simp

end App

/-- C2 (corrected): at the object column `["99-99"]` with a raising date
parse, the source's test strips the first `'-'` anywhere (`"99-99"` passes
as `"9999"`), so the code suggests NÚMERO with CONVERTIBLE_TO_NUMBER,
while under the claim's leading-minus-only test the value fails and the
fraction is 0, which would demand TEXT. -/
theorem C2_counterexample :
    (App.analyzeColumn (fun _ => true) 0 App.Dtype.object
        [App.AVal.str "99-99"]).sugerido_tipo = some "NÚMERO" ∧
      App.Issue.convNumber ∈
        (App.analyzeColumn (fun _ => true) 0 App.Dtype.object
          [App.AVal.str "99-99"]).problemas ∧
      App.specNumericTest "99-99" = false ∧
      App.isNumericLike "99-99" = true := by
  have hc : ((App.dropna [App.AVal.str "99-99"]).map App.valueStr).countP
      App.isNumericLike = 1 := by decide
  have hl : (App.dropna [App.AVal.str "99-99"]).length = 1 := by decide
  have hlt : (4 : ℚ) / 5 <
      (((App.dropna [App.AVal.str "99-99"]).map App.valueStr).countP
          App.isNumericLike : ℚ) /
        ((App.dropna [App.AVal.str "99-99"]).length : ℚ) := by
    rw [hc, hl]
    norm_num
  obtain ⟨h1, h2⟩ :=
    App.object_numeric_case (fun _ => true) 0 [App.AVal.str "99-99"] rfl hlt
  exact ⟨h1, h2, by decide, by decide⟩

/-- C2 (amended): for every textual (object) column whose whole-column
date parse raises, the code classifies each stringified non-null value by
stripping at most one `'.'` and at most one `'-'` — the first occurrence
of each, anywhere in the string, not only a leading minus — and suggests
NUMBER with issue CONVERTIBLE_TO_NUMBER exactly when the fraction of
passing values strictly exceeds 0.8; at a fraction of exactly 0.8 or below
it suggests TEXT with no issue from this step. -/
theorem C2_amended (dp : List String → Bool) (now : ℤ) (col : List App.AVal)
    (hdp : dp ((App.dropna col).map App.valueStr) = true) :
    ((4 : ℚ) / 5 <
        (((App.dropna col).map App.valueStr).countP App.isNumericLike : ℚ) /
          ((App.dropna col).length : ℚ) →
      (App.analyzeColumn dp now App.Dtype.object col).sugerido_tipo = some "NÚMERO" ∧
        App.Issue.convNumber ∈
          (App.analyzeColumn dp now App.Dtype.object col).problemas) ∧
    (¬ (4 : ℚ) / 5 <
        (((App.dropna col).map App.valueStr).countP App.isNumericLike : ℚ) /
          ((App.dropna col).length : ℚ) →
      (App.analyzeColumn dp now App.Dtype.object col).sugerido_tipo = some "TEXTO" ∧
        App.Issue.convNumber ∉
          (App.analyzeColumn dp now App.Dtype.object col).problemas) :=
  ⟨fun hlt => App.object_numeric_case dp now col hdp hlt,
   fun hge => App.object_text_case dp now col hdp hge⟩

/-- Witness for C2_amended at the concrete column `["1","2","3","4","x"]`
(fraction exactly 0.8, the claim's boundary case). -/
theorem C2_witness :
    (App.analyzeColumn (fun _ => true) 0 App.Dtype.object
        [App.AVal.str "1", App.AVal.str "2", App.AVal.str "3",
         App.AVal.str "4", App.AVal.str "x"]).sugerido_tipo = some "TEXTO" ∧
      App.Issue.convNumber ∉
        (App.analyzeColumn (fun _ => true) 0 App.Dtype.object
          [App.AVal.str "1", App.AVal.str "2", App.AVal.str "3",
           App.AVal.str "4", App.AVal.str "x"]).problemas := by
  have hc : ((App.dropna [App.AVal.str "1", App.AVal.str "2", App.AVal.str "3",
      App.AVal.str "4", App.AVal.str "x"]).map App.valueStr).countP
      App.isNumericLike = 4 := by decide
  have hl : (App.dropna [App.AVal.str "1", App.AVal.str "2", App.AVal.str "3",
      App.AVal.str "4", App.AVal.str "x"]).length = 5 := by decide
  refine (C2_amended (fun _ => true) 0
    [App.AVal.str "1", App.AVal.str "2", App.AVal.str "3",
     App.AVal.str "4", App.AVal.str "x"] rfl).2 ?_
  rw [hc, hl]
  norm_num

namespace App

/-- What each of steps 1–3 does to the record: it appends a (possibly
empty) batch of non-sentinel issues and sets the status to the warning
value exactly on a non-empty batch, never touching the status otherwise. -/
def StepOk (a r : ColAnalysis) : Prop :=
  ∃ added : List Issue,
    r.problemas = a.problemas ++ added ∧
      (∀ i ∈ added, i ≠ Issue.noIssues) ∧
      ((added = [] ∧ r.status = a.status) ∨
        (added ≠ [] ∧ r.status = Status.warn))

theorem stepOk_id (a : ColAnalysis) : StepOk a a :=
  ⟨[], by simp⟩

theorem stepOk_trans {a b c : ColAnalysis} (h1 : StepOk a b)
    (h2 : StepOk b c) : StepOk a c := by
  obtain ⟨l1, hp1, hn1, hs1⟩ := h1
  obtain ⟨l2, hp2, hn2, hs2⟩ := h2
  refine ⟨l1 ++ l2, by rw [hp2, hp1, List.append_assoc], ?_, ?_⟩
  · intro i hi
    rcases List.mem_append.mp hi with h | h
    · exact hn1 i h
    · exact hn2 i h
  · rcases hs1 with ⟨he1, hst1⟩ | ⟨hne1, hst1⟩
    · rcases hs2 with ⟨he2, hst2⟩ | ⟨hne2, hst2⟩
      · exact Or.inl ⟨by simp [he1, he2], by rw [hst2, hst1]⟩
      · exact Or.inr ⟨by simp [hne2], hst2⟩
    · rcases hs2 with ⟨he2, hst2⟩ | ⟨hne2, hst2⟩
      · exact Or.inr ⟨by simp [hne1], by rw [hst2, hst1]⟩
      · exact Or.inr ⟨by simp [hne2], hst2⟩

theorem stepOk_inferObject (dp : List String → Bool) (dtype : Dtype)
    (nn : List AVal) (a : ColAnalysis) : StepOk a (inferObject dp dtype nn a) := by
  unfold inferObject
  split_ifs
  · exact ⟨[Issue.convNumber], by simp⟩
  · exact ⟨[], by simp⟩
  · exact ⟨[Issue.convDate], by simp⟩
  · exact ⟨[], by simp⟩
  · exact stepOk_id a

theorem stepOk_checkTyped (now : ℤ) (dtype : Dtype) (col nn : List AVal)
    (a : ColAnalysis) : StepOk a (checkTyped now dtype col nn a) := by
  unfold checkTyped
  split_ifs
  · exact ⟨[Issue.outliers], by simp⟩
  · exact ⟨[], by simp⟩
  · exact ⟨[Issue.futureDates], by simp⟩
  · exact ⟨[], by simp⟩
  · exact stepOk_id a

theorem stepOk_checkNulls (a : ColAnalysis) : StepOk a (checkNulls a) := by
  unfold checkNulls
  split_ifs
  · exact ⟨[Issue.nullValues a.valores_nulos], by simp⟩
  · exact stepOk_id a

theorem stepOk_pre (dp : List String → Bool) (now : ℤ) (dtype : Dtype)
    (col : List AVal) :
    StepOk (initAnalysis dtype col)
      (checkNulls (checkTyped now dtype col (dropna col)
        (inferObject dp dtype (dropna col) (initAnalysis dtype col)))) :=
  stepOk_trans
    (stepOk_trans (stepOk_inferObject dp dtype (dropna col) (initAnalysis dtype col))
      (stepOk_checkTyped now dtype col (dropna col) _))
    (stepOk_checkNulls _)

/-- What the sentinel step makes of a record reached from the initial one
through warning-appending steps. -/
theorem sentinel_summary (a0 P : ColAnalysis) (h0p : a0.problemas = [])
    (h0s : a0.status = Status.ok) (hso : StepOk a0 P) :
    ((addSentinel P).status = Status.warn ↔
      ∃ i ∈ (addSentinel P).problemas, i ≠ Issue.noIssues) ∧
    (Issue.noIssues ∈ (addSentinel P).problemas ↔
      (addSentinel P).problemas = [Issue.noIssues]) := by
  obtain ⟨added, hp, hn, hs⟩ := hso
  rw [h0p, List.nil_append] at hp
  unfold addSentinel
  rcases hs with ⟨he, hst⟩ | ⟨hne, hst⟩
  · subst he
    rw [if_pos hp]
    constructor
    · simp [hst, h0s]
    · simp
  · rw [if_neg (by rw [hp]; exact hne)]
    obtain ⟨i0, hi0⟩ := List.exists_mem_of_ne_nil added hne
    constructor
    · rw [hst, hp]
      simp only [true_iff]
      exact ⟨i0, hi0, hn i0 hi0⟩
    · rw [hp]
      constructor
      · intro hmem
        exact absurd rfl (hn _ hmem)
      · intro heq
        rw [heq]
        simp

end App

/-- C5 (confirmed): in every diagnostic produced by the per-column
analysis, status equals WARNING iff the issue list holds a tag other than
the NO_ISSUES_FOUND sentinel, and the sentinel is present exactly when it
is the whole issue list (i.e. steps 1–4 appended nothing). -/
theorem C5_theorem (dp : List String → Bool) (now : ℤ) (dtype : App.Dtype)
    (col : List App.AVal) :
    ((App.analyzeColumn dp now dtype col).status = App.Status.warn ↔
       ∃ i ∈ (App.analyzeColumn dp now dtype col).problemas,
         i ≠ App.Issue.noIssues) ∧
    (App.Issue.noIssues ∈ (App.analyzeColumn dp now dtype col).problemas ↔
       (App.analyzeColumn dp now dtype col).problemas = [App.Issue.noIssues]) := by
  unfold App.analyzeColumn
  exact App.sentinel_summary (App.initAnalysis dtype col) _ rfl rfl
    (App.stepOk_pre dp now dtype col)

namespace App

theorem inferObject_nulos (dp : List String → Bool) (dtype : Dtype)
    (nn : List AVal) (a : ColAnalysis) :
    (inferObject dp dtype nn a).valores_nulos = a.valores_nulos := by
  unfold inferObject
  split_ifs <;> rfl

theorem inferObject_unicos (dp : List String → Bool) (dtype : Dtype)
    (nn : List AVal) (a : ColAnalysis) :
    (inferObject dp dtype nn a).valores_unicos = a.valores_unicos := by
  unfold inferObject
  split_ifs <;> rfl

theorem checkTyped_nulos (now : ℤ) (dtype : Dtype) (col nn : List AVal)
    (a : ColAnalysis) :
    (checkTyped now dtype col nn a).valores_nulos = a.valores_nulos := by
  unfold checkTyped
  split_ifs <;> rfl

theorem checkTyped_unicos (now : ℤ) (dtype : Dtype) (col nn : List AVal)
    (a : ColAnalysis) :
    (checkTyped now dtype col nn a).valores_unicos = a.valores_unicos := by
  unfold checkTyped
  split_ifs <;> rfl

theorem checkNulls_nulos (a : ColAnalysis) :
    (checkNulls a).valores_nulos = a.valores_nulos := by
  unfold checkNulls
  split_ifs <;> rfl

theorem checkNulls_unicos (a : ColAnalysis) :
    (checkNulls a).valores_unicos = a.valores_unicos := by
  unfold checkNulls
  split_ifs <;> rfl

theorem addSentinel_nulos (a : ColAnalysis) :
    (addSentinel a).valores_nulos = a.valores_nulos := by
  unfold addSentinel
  split_ifs <;> rfl

theorem addSentinel_unicos (a : ColAnalysis) :
    (addSentinel a).valores_unicos = a.valores_unicos := by
  unfold addSentinel
  split_ifs <;> rfl

theorem checkTyped_sugerido_numeric (now : ℤ) (dtype : Dtype)
    (col nn : List AVal) (a : ColAnalysis)
    (h : dtype = Dtype.int64 ∨ dtype = Dtype.float64) :
    (checkTyped now dtype col nn a).sugerido_tipo = some "NÚMERO" := by
  rw [checkTyped_numeric now dtype col nn a h]
  split_ifs <;> rfl

theorem checkTyped_sugerido_datetime (now : ℤ) (col nn : List AVal)
    (a : ColAnalysis) :
    (checkTyped now Dtype.datetime64 col nn a).sugerido_tipo = some "DATA" := by
  unfold checkTyped
  split_ifs <;> simp_all

end App

/-- C8 (corrected): the empty object column is a concrete column that
"cannot be summarized", yet diagnose suggests DATA for it (the vacuous
whole-column date parse succeeds), not UNKNOWN; its counts are zero as the
claim says. -/
theorem C8_counterexample :
    (App.analyzeColumn (fun _ => false) 0 App.Dtype.object []).sugerido_tipo =
        some "DATA" ∧
      (App.analyzeColumn (fun _ => false) 0 App.Dtype.object []).valores_nulos = 0 ∧
      (App.analyzeColumn (fun _ => false) 0 App.Dtype.object []).valores_unicos = 0 := by
  decide

/-- C8 (amended): diagnose never raises for an individual column (given
the pandas fact that the whole-column date parse cannot raise without a
non-null value, the embedded analysis is total), and an empty column
yields zero null and distinct counts; but its suggested type is UNKNOWN
(unset) only for dtypes outside object/int64/float64/datetime64 — an empty
object column gets DATA, an empty numeric column gets NÚMERO, an empty
datetime column gets DATA. -/
theorem C8_amended (dp : List String → Bool) (now : ℤ) (dtype : App.Dtype)
    (hdp : dp [] = false) :
    (App.analyzeColumn dp now dtype []).valores_nulos = 0 ∧
      (App.analyzeColumn dp now dtype []).valores_unicos = 0 ∧
      ((App.analyzeColumn dp now dtype []).sugerido_tipo = none ↔
        dtype = App.Dtype.otherD) := by
  refine ⟨?_, ?_, ?_⟩
  · unfold App.analyzeColumn
    rw [App.addSentinel_nulos, App.checkNulls_nulos, App.checkTyped_nulos,
        App.inferObject_nulos]
    simp
  · unfold App.analyzeColumn
    rw [App.addSentinel_unicos, App.checkNulls_unicos, App.checkTyped_unicos,
        App.inferObject_unicos]
    simp [App.dropna]
  · unfold App.analyzeColumn
    rw [App.addSentinel_sugerido, App.checkNulls_sugerido]
    cases dtype with
    | object =>
        rw [App.checkTyped_object]
        unfold App.inferObject
        simp only [App.dropna, List.filter_nil, List.map_nil, hdp]
        decide
    | int64 =>
        rw [App.checkTyped_sugerido_numeric _ _ _ _ _ (Or.inl rfl)]
        simp
    | float64 =>
        rw [App.checkTyped_sugerido_numeric _ _ _ _ _ (Or.inr rfl)]
        simp
    | datetime64 =>
        rw [App.checkTyped_sugerido_datetime]
        simp
    | otherD =>
        rw [show App.checkTyped now App.Dtype.otherD [] (App.dropna [])
            (App.inferObject dp App.Dtype.otherD (App.dropna [])
              (App.initAnalysis App.Dtype.otherD [])) =
            App.inferObject dp App.Dtype.otherD (App.dropna [])
              (App.initAnalysis App.Dtype.otherD []) from by
          unfold App.checkTyped
          simp]
        rw [App.inferObject_not_object dp App.Dtype.otherD (by simp)]
        simp

/-- Witness for C8_amended at a dtype outside the recognized four, where
the suggested type is indeed left unset. -/
theorem C8_witness :
    (App.analyzeColumn (fun _ => false) 0 App.Dtype.otherD []).valores_nulos = 0 ∧
      (App.analyzeColumn (fun _ => false) 0 App.Dtype.otherD []).valores_unicos = 0 ∧
      ((App.analyzeColumn (fun _ => false) 0 App.Dtype.otherD []).sugerido_tipo =
          none ↔ App.Dtype.otherD = App.Dtype.otherD) :=
  C8_amended (fun _ => false) 0 App.Dtype.otherD rfl

namespace App

/-- Step 2 at two analysis instants whose future-date comparison agrees. -/
theorem checkTyped_now_congr (n1 n2 : ℤ) (dtype : Dtype) (col nn : List AVal)
    (a : ColAnalysis) (h : futureFlag n1 col = futureFlag n2 col) :
    checkTyped n1 dtype col nn a = checkTyped n2 dtype col nn a := by
  unfold checkTyped
  rw [h]

/-- Step 2 ignores the analysis instant on non-datetime columns. -/
theorem checkTyped_not_datetime (n1 n2 : ℤ) (dtype : Dtype) (col nn : List AVal)
    (a : ColAnalysis) (h : dtype ≠ Dtype.datetime64) :
    checkTyped n1 dtype col nn a = checkTyped n2 dtype col nn a := by
  unfold checkTyped
  split_ifs <;> rfl

end App

/-- C9 (corrected): the same one-column datetime table diagnosed at instant
5 and at instant 10 (its maximum date 7 lying in between) yields different
outputs — the future-date issue depends on the moment of analysis, so two
applications of diagnose are not always identical. -/
theorem C9_counterexample :
    App.validate_data_types (fun _ => false) 5
        [⟨"D", App.Dtype.datetime64, [App.AVal.date 7]⟩] ≠
      App.validate_data_types (fun _ => false) 10
        [⟨"D", App.Dtype.datetime64, [App.AVal.date 7]⟩] := by
  decide

/-- C9 (amended): diagnose is deterministic in the analysis instant —
applying it twice yields identical output whenever the two applications
agree on the future-date comparison of every datetime column (in
particular whenever they run at the same instant); only that comparison
consults the clock. -/
theorem C9_amended (dp : List String → Bool) (n1 n2 : ℤ)
    (df : List App.RawCol)
    (h : ∀ c ∈ df, c.dtype = App.Dtype.datetime64 →
      App.futureFlag n1 c.values = App.futureFlag n2 c.values) :
    App.validate_data_types dp n1 df = App.validate_data_types dp n2 df := by
  unfold App.validate_data_types
  apply List.map_congr_left
  intro c hc
  have hcol : App.checkTyped n1 c.dtype c.values (App.dropna c.values)
      (App.inferObject dp c.dtype (App.dropna c.values)
        (App.initAnalysis c.dtype c.values)) =
      App.checkTyped n2 c.dtype c.values (App.dropna c.values)
        (App.inferObject dp c.dtype (App.dropna c.values)
          (App.initAnalysis c.dtype c.values)) := by
    by_cases hdt : c.dtype = App.Dtype.datetime64
    · exact App.checkTyped_now_congr n1 n2 c.dtype c.values _ _ (h c hc hdt)
    · exact App.checkTyped_not_datetime n1 n2 c.dtype c.values _ _ hdt
  unfold App.analyzeColumn
  rw [hcol]

/-- Witness for C9_amended: a datetime table whose only date 3 is past at
both instants 5 and 6. -/
theorem C9_witness :
    App.validate_data_types (fun _ => false) 5
        [⟨"D", App.Dtype.datetime64, [App.AVal.date 3]⟩] =
      App.validate_data_types (fun _ => false) 6
        [⟨"D", App.Dtype.datetime64, [App.AVal.date 3]⟩] :=
  C9_amended (fun _ => false) 5 6
    [⟨"D", App.Dtype.datetime64, [App.AVal.date 3]⟩] (by decide)

/-- C10 (confirmed): the numeric-classification fraction is computed only
when the whole-column date parse of a textual column raised; pandas cannot
raise on a column with no non-null values (hypothesis `dp [] = false`), so
whenever the branch is reached the denominator — the number of non-null
values — is positive, and the division cannot fail. -/
theorem C10_theorem (dp : List String → Bool) (col : List App.AVal)
    (hdp : dp [] = false)
    (hraise : dp ((App.dropna col).map App.valueStr) = true) :
    0 < (App.dropna col).length ∧
      ((App.dropna col).length : ℚ) ≠ 0 := by
  have hne : App.dropna col ≠ [] := by
    intro h
    rw [h] at hraise
    simp only [List.map_nil] at hraise
    exact absurd hraise (by simp [hdp])
  have hlen : 0 < (App.dropna col).length := List.length_pos.mpr hne
  refine ⟨hlen, ?_⟩
  exact_mod_cast Nat.pos_iff_ne_zero.mp hlen

/-- Witness for C10_theorem with a parser that raises exactly on non-empty
columns, at the one-value column `["x"]`. -/
theorem C10_witness :
    0 < (App.dropna [App.AVal.str "x"]).length ∧
      ((App.dropna [App.AVal.str "x"]).length : ℚ) ≠ 0 :=
  C10_theorem (fun l => !l.isEmpty) [App.AVal.str "x"] (by decide) (by decide)

namespace App

/-- Column conversion keeps the label. -/
theorem processCol_label (pdate : AVal → Option ℤ) (pn : AVal → Option ℚ)
    (c : RawCol) : (processCol pdate pn c).label = c.label := by
  unfold processCol
  split_ifs
  · rfl
  · rcases h : numericRole c.label with - | nd
    · simp [h]
    · rcases nd <;>
        (simp only [h]; rcases h2 : astypeCol _ (c.values.map pn) <;> simp [h2])

end App

/-- C3 (corrected): at the int64-role column `COD` holding `["x", 5]` with
the usual numeric parser, the unparsable `"x"` does NOT become null: the
`astype('int64')` cast raises on the NaN, the bare `except` swallows it,
and the returned table keeps the column exactly as it was. -/
theorem C3_counterexample :
    App.preprocess_data (fun _ => none)
        (fun v => match v with | App.AVal.num q => some q | _ => none)
        [⟨"COD", App.Dtype.object, [App.AVal.str "x", App.AVal.num 5]⟩] =
      [⟨"COD", App.Dtype.object, [App.AVal.str "x", App.AVal.num 5]⟩] := by
  decide

/-- C3 (amended): coerce always returns a table with the same labels in
the same order and never raises; for a float64-role column every value
parses per-value with null on failure; but for an int64-role column with
any unparsable (or null) value the `astype('int64')` cast raises, the
exception is caught, and the whole column is left unchanged — it degrades
to the original values, not to nulls. -/
theorem C3_amended (pdate : App.AVal → Option ℤ) (pn : App.AVal → Option ℚ)
    (df : List App.RawCol) :
    ((App.preprocess_data pdate pn df).map App.RawCol.label =
        df.map App.RawCol.label) ∧
    (∀ c : App.RawCol, c.label ∉ App.date_columns →
      App.numericRole c.label = some App.NDtype.float64T →
        (App.processCol pdate pn c).values =
          c.values.map (fun v => match pn v with
            | some q => App.AVal.num q
            | none => App.AVal.null)) ∧
    (∀ c : App.RawCol, c.label ∉ App.date_columns →
      App.numericRole c.label = some App.NDtype.int64T →
      (c.values.map pn).all Option.isSome = false →
        App.processCol pdate pn c = c) := by
  refine ⟨?_, ?_, ?_⟩
  · unfold App.preprocess_data
    rw [List.map_map]
    apply List.map_congr_left
    intro c _
    exact App.processCol_label pdate pn c
  · intro c hdate hrole
    unfold App.processCol
    rw [if_neg hdate, hrole]
    simp [App.astypeCol]
  · intro c hdate hrole hfail
    unfold App.processCol
    rw [if_neg hdate, hrole]
    unfold App.astypeCol
    rw [hfail]
    simp

/-- Witness for C3_amended: the float64-role column `PONTO` holding
`["x"]` (the unparsable value becomes null), plus the label-preservation
part at the same table. -/
theorem C3_witness :
    (App.processCol (fun _ => none)
        (fun v => match v with | App.AVal.num q => some q | _ => none)
        ⟨"PONTO", App.Dtype.object, [App.AVal.str "x"]⟩).values =
      [App.AVal.str "x"].map
        (fun v => match (fun v => match v with
            | App.AVal.num q => some q
            | _ => none : App.AVal → Option ℚ) v with
          | some q => App.AVal.num q
          | none => App.AVal.null) :=
  (C3_amended (fun _ => none)
      (fun v => match v with | App.AVal.num q => some q | _ => none) []).2.1
    ⟨"PONTO", App.Dtype.object, [App.AVal.str "x"]⟩ (by decide) (by decide)

namespace Snap

theorem isSome_option_map {α β : Type} (f : α → β) (o : Option α) :
    (o.map f).isSome = o.isSome := by
  cases o <;> rfl

theorem allSome_map_some {α β : Type} (f : α → Option β) (g : α → β)
    (l : List α) (h : ∀ a ∈ l, f a = some (g a)) :
    allSome (l.map f) = some (l.map g) := by
  induction l with
  | nil => rfl
  | cons a t ih =>
      simp only [List.map_cons]
      rw [h a (by simp)]
      simp only [allSome]
      rw [ih (fun x hx => h x (by simp [hx]))]

theorem allSome_isSome_iff {α : Type} (L : List (Option α)) :
    (allSome L).isSome = true ↔ ∀ o ∈ L, o.isSome = true := by
  induction L with
  | nil => simp [allSome]
  | cons o t ih =>
      cases o with
      | none => simp [allSome]
      | some a =>
          simp only [allSome]
          cases ht : allSome t with
          | none =>
              simp [ht] at ih ⊢
              exact ih
          | some r =>
              simp [ht] at ih ⊢
              exact ih

theorem allSome_eq_some_imp {α : Type} (d : α) (L : List (Option α))
    (r : List α) (h : allSome L = some r) :
    r = L.map (fun o => o.getD d) := by
  induction L generalizing r with
  | nil =>
      simp only [allSome] at h
      simp [← Option.some_inj.mp h]
  | cons o t ih =>
      cases o with
      | none => simp [allSome] at h
      | some a =>
          simp only [allSome] at h
          cases ht : allSome t with
          | none => rw [ht] at h; simp at h
          | some rt =>
              rw [ht] at h
              simp only [Option.some_inj] at h
              rw [← h, List.map_cons]
              simp [ih rt ht]

theorem serializeCell_isSome_iff (c : Cell) :
    (serializeCell c).isSome = true ↔ c ≠ Cell.other := by
  cases c <;> simp [serializeCell]

theorem serializeRow_isSome_iff (r : List Cell) :
    (serializeRow r).isSome = true ↔ Cell.other ∉ r := by
  unfold serializeRow
  rw [isSome_option_map, allSome_isSome_iff]
  constructor
  · intro h hmem
    have := h (serializeCell Cell.other) (List.mem_map_of_mem _ hmem)
    simp [serializeCell] at this
  · intro h o ho
    obtain ⟨c, hc, rfl⟩ := List.mem_map.mp ho
    have hne : c ≠ Cell.other := fun hh => h (hh ▸ hc)
    exact (serializeCell_isSome_iff c).mpr hne

theorem encodeTable_isSome_iff (T : List TCol) :
    (encodeTable T).isSome = true ↔
      ∀ row ∈ rowMajor T, Cell.other ∉ row := by
  unfold encodeTable
  rw [isSome_option_map, allSome_isSome_iff]
  constructor
  · intro h row hrow
    exact (serializeRow_isSome_iff row).mp (h _ (List.mem_map_of_mem _ hrow))
  · intro h o ho
    obtain ⟨row, hr, rfl⟩ := List.mem_map.mp ho
    exact (serializeRow_isSome_iff row).mpr (h row hr)

end Snap

/-- C7 (corrected): the encoder never fails because of a type tag — the
single-column table tagged `bool` (a tag the decoder's table does not
recognize) with a serializable value encodes successfully; the `dtypes`
mapping records the tag verbatim and nothing inspects it. -/
theorem C7_counterexample :
    Snap.parseTag (Snap.tagStr Snap.Tag.boolT) = none ∧
      (Snap.encodeTable
        [⟨"FLAG", Snap.Tag.boolT, [Snap.Cell.boolc true]⟩]).isSome = true := by
  exact ⟨rfl, rfl⟩

/-- C7 (amended): encode fails exactly when some cell of the row-major
matrix has no JSON representation (a raw non-serializable object), never
because of a type tag; and because the document is serialized in memory
before the output file is opened, a failing encode writes nothing at all —
no partial snapshot — while a successful encode writes the whole document
to the output path. -/
theorem C7_amended (p : String) (T : List Snap.TCol) :
    (Snap.encodeTable T = none → Snap.convertResult p T = (false, none)) ∧
    (∀ doc, Snap.encodeTable T = some doc →
      Snap.convertResult p T = (true, some (p, doc))) ∧
    ((Snap.encodeTable T).isSome = true ↔
      ∀ row ∈ Snap.rowMajor T, Snap.Cell.other ∉ row) := by
  refine ⟨?_, ?_, Snap.encodeTable_isSome_iff T⟩
  · intro h
    unfold Snap.convertResult
    rw [h]
  · intro doc h
    unfold Snap.convertResult
    rw [h]

/-- Witness for C7_amended: a float32 column holding a raw unserializable
object makes encode fail, and nothing is written. -/
theorem C7_witness :
    Snap.convertResult "janeiro_2025.json.gz"
        [⟨"COD", Snap.Tag.float32, [Snap.Cell.other]⟩] = (false, none) :=
  (C7_amended "janeiro_2025.json.gz"
      [⟨"COD", Snap.Tag.float32, [Snap.Cell.other]⟩]).1 rfl

namespace Snap

theorem fixedDigits_length (w : ℕ) : ∀ n : ℕ, (fixedDigits w n).length = w := by
  induction w with
  | zero => intro n; rfl
  | succ k ih =>
      intro n
      simp [fixedDigits, ih]

theorem fixedDigits_digits (w : ℕ) :
    ∀ n : ℕ, (fixedDigits w n).all Char.isDigit = true := by
  induction w with
  | zero => intro n; rfl
  | succ k ih =>
      intro n
      simp only [fixedDigits, List.all_append, ih, Bool.true_and, List.all_cons,
        List.all_nil, Bool.and_true]
      have h10 : n % 10 < 10 := Nat.mod_lt _ (by norm_num)
      have hall : ∀ d < 10, (Char.ofNat (48 + d)).isDigit = true := by decide
      exact hall _ h10

theorem strftimeCompact_length (t : DateT) : (strftimeCompact t).length = 14 := by
  unfold strftimeCompact
  simp [String.length, fixedDigits_length]

theorem strftimeCompact_digits (t : DateT) :
    (strftimeCompact t).toList.all Char.isDigit = true := by
  unfold strftimeCompact
  simp [String.toList, List.all_append, fixedDigits_digits]

/-- Every cell of a converted date-role column is null or a 14-character
all-digit timestamp string. -/
theorem convertDateCol_values (pdate : Cell → Option DateT) (vals : List Cell)
    (v : Cell) (hv : v ∈ convertDateCol pdate vals) :
    v = Cell.null ∨ ∃ s, v = Cell.str s ∧ s.length = 14 ∧
      s.toList.all Char.isDigit = true := by
  unfold convertDateCol at hv
  obtain ⟨w, -, rfl⟩ := List.mem_map.mp hv
  cases hp : pdate w with
  | none => simp [hp]
  | some t =>
      right
      exact ⟨strftimeCompact t, by simp [hp], strftimeCompact_length t,
        strftimeCompact_digits t⟩

theorem serializeRow_eq_of_isSome (r : List Cell)
    (h : (serializeRow r).isSome = true) :
    serializeRow r = some (JVal.arr (r.map serializeCellD)) := by
  unfold serializeRow at h ⊢
  cases hs : allSome (r.map serializeCell) with
  | none => rw [hs] at h; simp at h
  | some l =>
      have hl := allSome_eq_some_imp JVal.null (r.map serializeCell) l hs
      rw [hl, List.map_map]
      rfl

theorem encodeTable_eq_of_isSome (T : List TCol)
    (h : (encodeTable T).isSome = true) :
    encodeTable T = some (mkDoc T) := by
  have hall : ∀ r ∈ rowMajor T, (serializeRow r).isSome = true := by
    unfold encodeTable at h
    rw [isSome_option_map, allSome_isSome_iff] at h
    intro r hr
    exact h _ (List.mem_map_of_mem _ hr)
  unfold encodeTable mkDoc
  rw [allSome_map_some serializeRow
    (fun r => JVal.arr (r.map serializeCellD)) (rowMajor T)
    (fun r hr => serializeRow_eq_of_isSome r (hall r hr))]
  rfl

end Snap

/-- C6 (confirmed): every successfully encoded document is exactly the
three-key object `columns` / `data` (row-major, built by serializing each
cell, with a None or non-finite float cell rendered as JSON null) /
`dtypes` (each column label mapped to its verbatim type-tag string); and
every cell of a date-role column is, after conversion, either null (an
unparsable or missing date stays null) or a fixed-width 14-digit
`YYYYMMDDHHMMSS` string. -/
theorem C6_theorem (r32 : ℚ → ℚ) (pdate : Snap.Cell → Option Snap.DateT)
    (pnum : Snap.Cell → Snap.NumVal) (cols : List Snap.TCol) (doc : Snap.JVal)
    (h : Snap.convert_excel_to_json r32 pdate pnum cols = some doc) :
    doc = Snap.mkDoc (Snap.convertCols r32 pdate pnum cols) ∧
    (∀ c ∈ Snap.convertCols r32 pdate pnum cols, c.label ∈ Snap.dateLabels →
      ∀ v ∈ c.values, v = Snap.Cell.null ∨
        ∃ s, v = Snap.Cell.str s ∧ s.length = 14 ∧
          s.toList.all Char.isDigit = true) ∧
    Snap.serializeCell Snap.Cell.null = some Snap.JVal.null ∧
    Snap.serializeCell Snap.Cell.nonfinite = some Snap.JVal.null := by
  refine ⟨?_, ?_, rfl, rfl⟩
  · unfold Snap.convert_excel_to_json at h
    have hsome : (Snap.encodeTable (Snap.convertCols r32 pdate pnum cols)).isSome =
        true := by
      rw [h]
      rfl
    rw [Snap.encodeTable_eq_of_isSome _ hsome] at h
    exact (Option.some_inj.mp h).symm
  · intro c hc hdate v hv
    unfold Snap.convertCols at hc
    obtain ⟨c0, -, rfl⟩ := List.mem_map.mp hc
    split_ifs at hdate hv with hd hn
    · exact Snap.convertDateCol_values pdate c0.values v hv
    · exact absurd hdate hd
    · exact absurd hdate hd

/-- Witness for C6_theorem at a one-column table whose date column parses
to 2025-01-02 03:04:05. -/
theorem C6_witness :
    Snap.JVal.obj
        [("columns", Snap.JVal.arr [Snap.JVal.str "DATA"]),
         ("data", Snap.JVal.arr
            [Snap.JVal.arr [Snap.JVal.str (Snap.strftimeCompact ⟨2025, 1, 2, 3, 4, 5⟩)]]),
         ("dtypes", Snap.JVal.obj [("DATA", Snap.JVal.str "object")])] =
      Snap.mkDoc (Snap.convertCols id (fun _ => some ⟨2025, 1, 2, 3, 4, 5⟩)
        (fun _ => Snap.NumVal.na)
        [⟨"DATA", Snap.Tag.datetime64, [Snap.Cell.str "2025-01-02 03:04:05"]⟩]) ∧
    (∀ c ∈ Snap.convertCols id (fun _ => some ⟨2025, 1, 2, 3, 4, 5⟩)
        (fun _ => Snap.NumVal.na)
        [⟨"DATA", Snap.Tag.datetime64, [Snap.Cell.str "2025-01-02 03:04:05"]⟩],
      c.label ∈ Snap.dateLabels →
      ∀ v ∈ c.values, v = Snap.Cell.null ∨
        ∃ s, v = Snap.Cell.str s ∧ s.length = 14 ∧
          s.toList.all Char.isDigit = true) ∧
    Snap.serializeCell Snap.Cell.null = some Snap.JVal.null ∧
    Snap.serializeCell Snap.Cell.nonfinite = some Snap.JVal.null :=
  C6_theorem id (fun _ => some ⟨2025, 1, 2, 3, 4, 5⟩) (fun _ => Snap.NumVal.na)
    [⟨"DATA", Snap.Tag.datetime64, [Snap.Cell.str "2025-01-02 03:04:05"]⟩] _ rfl

namespace Snap

theorem getD_map_lt {α β : Type} (f : α → β) (l : List α) (j : ℕ)
    (hj : j < l.length) (d : β) (d' : α) :
    (l.map f).getD j d = f (l.getD j d') := by
  induction l generalizing j with
  | nil => cases hj
  | cons a t ih =>
      cases j with
      | zero => rfl
      | succ k => simpa using ih k (by simpa using hj)

theorem getD_mem_of_lt {α : Type} (l : List α) (j : ℕ) (hj : j < l.length)
    (d : α) : l.getD j d ∈ l := by
  induction l generalizing j with
  | nil => cases hj
  | cons a t ih =>
      cases j with
      | zero => exact List.mem_cons_self _ _
      | succ k => exact List.mem_cons_of_mem _ (ih k (by simpa using hj))

theorem range_map_getD {α : Type} (l : List α) (d : α) :
    (List.range l.length).map (fun i => l.getD i d) = l := by
  induction l with
  | nil => rfl
  | cons a t ih =>
      rw [List.length_cons, List.range_succ_eq_map, List.map_cons, List.map_map]
      rw [show ((fun i => (a :: t).getD i d) ∘ Nat.succ) = fun i => t.getD i d from by
        funext i
        simp [Function.comp, List.getD_cons_succ]]
      rw [ih]
      rfl

theorem lookup_label_map {β : Type} (f : TCol → β) (l : List TCol) (c : TCol)
    (hnd : (l.map TCol.label).Nodup) (hc : c ∈ l) :
    (l.map (fun d => (d.label, f d))).lookup c.label = some (f c) := by
  induction l with
  | nil => cases hc
  | cons a t ih =>
      rw [List.map_cons] at hnd
      rcases List.mem_cons.mp hc with rfl | hct
      · simp [List.lookup]
      · have hne : (c.label == a.label) = false := by
          apply beq_eq_false_iff_ne.mpr
          intro he
          exact (List.nodup_cons.mp hnd).1
            (he ▸ List.mem_map_of_mem TCol.label hct)
        rw [List.map_cons]
        simp only [List.lookup, hne]
        exact ih (List.nodup_cons.mp hnd).2 hct

theorem parseTag_tagStr (t : Tag) (h : representableTag t = true) :
    parseTag (tagStr t) = some t := by
  cases t <;> first | rfl | (exact absurd h (by decide))

theorem replay_serialize (r32 : ℚ → ℚ) (t : Tag) (c : Cell)
    (h : cellOk r32 t c = true) :
    replayCell r32 t (serializeCellD c) = c := by
  cases t <;> cases c <;>
    simp_all [cellOk, serializeCellD, serializeCell, replayCell]

theorem cellOk_ne_other (r32 : ℚ → ℚ) (t : Tag) (c : Cell)
    (h : cellOk r32 t c = true) : c ≠ Cell.other := by
  cases t <;> cases c <;> simp_all [cellOk]

theorem rowMajor_no_other (r32 : ℚ → ℚ) (T : List TCol)
    (hcells : ∀ c ∈ T, ∀ v ∈ c.values, cellOk r32 c.tag v = true) :
    ∀ row ∈ rowMajor T, Cell.other ∉ row := by
  intro row hrow hmem
  unfold rowMajor at hrow
  obtain ⟨i, -, rfl⟩ := List.mem_map.mp hrow
  obtain ⟨c, hcT, hco⟩ := List.mem_map.mp hmem
  by_cases hi : i < c.values.length
  · have hmem' : Cell.other ∈ c.values := hco ▸ getD_mem_of_lt c.values i hi _
    exact cellOk_ne_other r32 c.tag Cell.other (hcells c hcT _ hmem') rfl
  · rw [List.getD_eq_default _ _ (le_of_not_lt hi)] at hco
    cases hco

end Snap

namespace Snap

/-- Unfolding the decoder on a document the encoder produced: the three
key lookups succeed and the decoder walks the column indices. -/
theorem decode_mkDoc_step (r32 : ℚ → ℚ) (T : List TCol) :
    decodeTable r32 (mkDoc T) =
      allSome ((List.range (T.map (fun c => JVal.str c.label)).length).map
        (decodeColumn r32
          (T.map (fun c => (c.label, JVal.str (tagStr c.tag))))
          ((rowMajor T).map (fun r => JVal.arr (r.map serializeCellD)))
          (T.map (fun c => JVal.str c.label)))) := rfl

end Snap

namespace Snap

/-- Decoding the `j`-th column of an encoder-produced document restores
the `j`-th input column. -/
theorem decodeColumn_mkDoc (r32 : ℚ → ℚ) (T : List TCol)
    (hrect : ∀ c ∈ T, c.values.length = nRows T)
    (hnd : (T.map TCol.label).Nodup)
    (htags : ∀ c ∈ T, representableTag c.tag = true)
    (hcells : ∀ c ∈ T, ∀ v ∈ c.values, cellOk r32 c.tag v = true)
    (j : ℕ) (hj : j < T.length) :
    decodeColumn r32 (T.map (fun c => (c.label, JVal.str (tagStr c.tag))))
      ((rowMajor T).map (fun r => JVal.arr (r.map serializeCellD)))
      (T.map (fun c => JVal.str c.label)) j = some (T.getD j dummyT) := by
  have hmemc : T.getD j dummyT ∈ T := getD_mem_of_lt T j hj dummyT
  unfold decodeColumn
  rw [getD_map_lt (fun c => JVal.str c.label) T j hj JVal.null dummyT]
  try dsimp only
  rw [lookup_label_map (fun d => JVal.str (tagStr d.tag)) T (T.getD j dummyT)
    hnd hmemc]
  try dsimp only
  rw [parseTag_tagStr _ (htags _ hmemc)]
  try dsimp only
  rw [Option.some_inj]
  have hvals : ((rowMajor T).map (fun r => JVal.arr (r.map serializeCellD))).map
      (fun row => replayCell r32 (T.getD j dummyT).tag (match row with
        | JVal.arr cells => cells.getD j JVal.null
        | _ => JVal.null)) = (T.getD j dummyT).values := by
    rw [List.map_map]
    unfold rowMajor
    rw [List.map_map]
    rw [show nRows T = (T.getD j dummyT).values.length from (hrect _ hmemc).symm]
    calc (List.range (T.getD j dummyT).values.length).map
          ((fun row => replayCell r32 (T.getD j dummyT).tag (match row with
              | JVal.arr cells => cells.getD j JVal.null
              | _ => JVal.null)) ∘
            ((fun r => JVal.arr (r.map serializeCellD)) ∘
              (fun i => T.map (fun c => c.values.getD i Cell.null))))
        = (List.range (T.getD j dummyT).values.length).map
            (fun i => (T.getD j dummyT).values.getD i Cell.null) := by
          apply List.map_congr_left
          intro i hi
          have hilt : i < (T.getD j dummyT).values.length := List.mem_range.mp hi
          simp only [Function.comp_apply]
          try dsimp only
          rw [List.map_map]
          rw [getD_map_lt (serializeCellD ∘ fun c => c.values.getD i Cell.null)
            T j hj JVal.null dummyT]
          exact replay_serialize r32 _ _
            (hcells _ hmemc _ (getD_mem_of_lt _ i hilt _))
      _ = (T.getD j dummyT).values := range_map_getD _ _
  rw [hvals]

/-- Decoding an encoder-produced document of a well-formed table restores
the table. -/
theorem decode_mkDoc (r32 : ℚ → ℚ) (T : List TCol)
    (hrect : ∀ c ∈ T, c.values.length = nRows T)
    (hnd : (T.map TCol.label).Nodup)
    (htags : ∀ c ∈ T, representableTag c.tag = true)
    (hcells : ∀ c ∈ T, ∀ v ∈ c.values, cellOk r32 c.tag v = true) :
    decodeTable r32 (mkDoc T) = some T := by
  rw [decode_mkDoc_step, List.length_map]
  rw [allSome_map_some _ (fun j => T.getD j dummyT) (List.range T.length)
    (fun j hj =>
      decodeColumn_mkDoc r32 T hrect hnd htags hcells j (List.mem_range.mp hj))]
  rw [range_map_getD]

end Snap

/-- C4 (confirmed): for every well-formed typed table whose columns all
carry representable type tags — in particular, every float32 value already
at the narrow width (`r32 q = q`), so re-rounding on decode cannot degrade
it further — encoding succeeds and decoding the resulting document
reproduces the table exactly: same labels, same row count, bit-identical
wide numeric and text values, and narrow float values equal to the input's
already-rounded values. -/
theorem C4_theorem (r32 : ℚ → ℚ) (T : List Snap.TCol)
    (hwf : Snap.wfTable r32 T) :
    ∃ doc, Snap.encodeTable T = some doc ∧
      Snap.decodeTable r32 doc = some T := by
  obtain ⟨hrect, hnd, hrep⟩ := hwf
  have htags : ∀ c ∈ T, Snap.representableTag c.tag = true :=
    fun c hc => (hrep c hc).1
  have hcells : ∀ c ∈ T, ∀ v ∈ c.values, Snap.cellOk r32 c.tag v = true :=
    fun c hc => (hrep c hc).2
  have hsome : (Snap.encodeTable T).isSome = true :=
    (Snap.encodeTable_isSome_iff T).mpr (Snap.rowMajor_no_other r32 T hcells)
  exact ⟨Snap.mkDoc T, Snap.encodeTable_eq_of_isSome T hsome,
    Snap.decode_mkDoc r32 T hrect hnd htags hcells⟩

/-- Witness for C4_theorem: a two-column table (a float32 column with a
null and an already-narrow value, and a text column) round-trips. -/
theorem C4_witness :
    ∃ doc, Snap.encodeTable
        [⟨"VALOR TÉCNICO", Snap.Tag.float32, [Snap.Cell.null, Snap.Cell.fin 2]⟩,
         ⟨"CLIENTE", Snap.Tag.object, [Snap.Cell.str "a", Snap.Cell.null]⟩] =
        some doc ∧
      Snap.decodeTable id doc =
        some [⟨"VALOR TÉCNICO", Snap.Tag.float32,
                [Snap.Cell.null, Snap.Cell.fin 2]⟩,
              ⟨"CLIENTE", Snap.Tag.object,
                [Snap.Cell.str "a", Snap.Cell.null]⟩] :=
  C4_theorem id
    [⟨"VALOR TÉCNICO", Snap.Tag.float32, [Snap.Cell.null, Snap.Cell.fin 2]⟩,
     ⟨"CLIENTE", Snap.Tag.object, [Snap.Cell.str "a", Snap.Cell.null]⟩]
    ⟨by decide, by decide, by decide⟩
